import Mathlib

/-!
# Verification of the Flying Bird game (src/project_1.py)

A shallow embedding of the game's simulation core.  Python/pygame
conventions that matter here:

* `pygame.Rect` stores integer coordinates; assigning a float to a rect
  attribute truncates it toward zero (C double-to-int cast).  We model
  rect coordinates with `ℤ` and the truncating assignment with `ratTrunc`.
* Float arithmetic in the game only ever produces multiples of `1/2`
  (gravity `0.5`, jump `-8`), which doubles are exact on, so `ℚ` is a
  faithful model of the bird's velocity.
* `pygame.Rect.colliderect` normalises negative sizes with min/max and
  uses strict inequalities: rectangles that merely touch along an edge do
  not collide.
* `random.randint(a, b)` draws from the closed interval `[a, b]`; we model
  the draw as an oracle argument threaded through the per-frame step.
-/

set_option maxRecDepth 40000

namespace FlyingBird

/- Batteries marks the rational-number operations `@[irreducible]`; the
definitions below are meant to be evaluated on concrete states, so we
restore the default reducibility inside this namespace. -/
attribute [local semireducible] Rat.add Rat.mul Rat.inv Rat.sub Rat.ofScientific

/-! Game constants (src/project_1.py, lines 9-17) -/

def SCREEN_WIDTH : ℤ := 1000
def SCREEN_HEIGHT : ℤ := 600
def GROUND_HEIGHT : ℤ := 100
def PIPE_GAP : ℤ := 150
def PIPE_WIDTH : ℤ := 50
def PIPE_SPEED : ℤ := 3
def BIRD_GRAVITY : ℚ := 1/2
def BIRD_JUMP_STRENGTH : ℚ := -8

/-- Truncation toward zero, the conversion applied when a Python float is
assigned to a `pygame.Rect` attribute.  A rational is stored with a
positive denominator, so truncating division (`Int.tdiv`) of the
numerator by the denominator is exactly truncation toward zero. -/
def ratTrunc (q : ℚ) : ℤ :=
  q.num.tdiv (q.den : ℤ)

/-! Rectangles (`pygame.Rect`) -/

/-- An axis-aligned rectangle with integer coordinates, as `pygame.Rect`. -/
structure Rect where
  x : ℤ
  y : ℤ
  w : ℤ
  h : ℤ
deriving DecidableEq

def Rect.top (r : Rect) : ℤ := r.y

def Rect.bottom (r : Rect) : ℤ := r.y + r.h

def Rect.setTop (r : Rect) (v : ℤ) : Rect := { r with y := v }

def Rect.setBottom (r : Rect) (v : ℤ) : Rect := { r with y := v - r.h }

/-- `pygame.Rect.colliderect`: sizes are normalised with min/max and all
comparisons are strict, so rectangles touching along an edge do not
collide. -/
def Rect.colliderect (a b : Rect) : Bool :=
  decide (min a.x (a.x + a.w) < max b.x (b.x + b.w)) &&
  decide (min a.y (a.y + a.h) < max b.y (b.y + b.h)) &&
  decide (max a.x (a.x + a.w) > min b.x (b.x + b.w)) &&
  decide (max a.y (a.y + a.h) > min b.y (b.y + b.h))

/-! Bird (src/project_1.py, lines 38-58) -/

structure Bird where
  rect : Rect
  velocity : ℚ
deriving DecidableEq

/-- Constructor `Bird.__init__`: a 30×30 square whose rect is centred at
`(SCREEN_WIDTH // 4, SCREEN_HEIGHT // 2)`, velocity `0`. -/
def Bird.new : Bird :=
  { rect := { x := SCREEN_WIDTH / 4 - 30 / 2
              y := SCREEN_HEIGHT / 2 - 30 / 2
              w := 30
              h := 30 }
    velocity := 0 }

/-- Method `Bird.jump`: sets the velocity to the jump strength. -/
def Bird.jump (b : Bird) : Bird := { b with velocity := BIRD_JUMP_STRENGTH }

/-- Method `Bird.update`: gravity is added to the velocity, the velocity is added
to `rect.y` (with the float result truncated into the integer rect), and
if the rect's top ended up above the screen it is clamped to `0` and the
velocity reset to `0`. -/
def Bird.update (b : Bird) : Bird :=
  let velocity := b.velocity + BIRD_GRAVITY
  let rect : Rect := { b.rect with y := ratTrunc ((b.rect.y : ℚ) + velocity) }
  if rect.top < 0 then
    { b with rect := rect.setTop 0, velocity := 0 }
  else
    { b with rect := rect, velocity := velocity }

/-! Pipe (src/project_1.py, lines 65-90) -/

structure Pipe where
  x : ℤ
  height : ℤ
  passed : Bool
  top_rect : Rect
  bottom_rect : Rect
deriving DecidableEq

/-- Constructor `Pipe.__init__(x, height)`. -/
def Pipe.new (x height : ℤ) : Pipe :=
  { x := x
    height := height
    passed := false
    top_rect := { x := x, y := 0, w := PIPE_WIDTH, h := height }
    bottom_rect := { x := x
                     y := height + PIPE_GAP
                     w := PIPE_WIDTH
                     h := SCREEN_HEIGHT - (height + PIPE_GAP) - GROUND_HEIGHT } }

/-- Method `Pipe.update`: moves the pipe left by `PIPE_SPEED` and keeps the two
rects' horizontal positions in sync. -/
def Pipe.update (p : Pipe) : Pipe :=
  let x := p.x - PIPE_SPEED
  { p with x := x
           top_rect := { p.top_rect with x := x }
           bottom_rect := { p.bottom_rect with x := x } }

/-- Method `Pipe.off_screen`: the pipe's right edge has passed the left screen
boundary. -/
def Pipe.off_screen (p : Pipe) : Bool :=
  decide (p.x + PIPE_WIDTH < 0)

/-! Session state (the mutable variables of `game_loop`,
src/project_1.py, lines 117-122) -/

structure GameState where
  bird : Bird
  pipes : List Pipe
  score : ℤ
  game_over : Bool
  start_screen : Bool
  pipe_spawn_timer : ℤ
deriving DecidableEq

def pipe_spawn_interval : ℤ := 90

/-- Function `reset_game` (src/project_1.py, lines 108-114): the four variables it
rebuilds, in the order it returns them. -/
def reset_game : Bird × List Pipe × ℤ × Bool :=
  (Bird.new, [], 0, false)

/-- The three phases of a session, as the spec names them.  The flags of
the source map onto them through `GameState.phase` below. -/
inductive Phase
  | StartScreen
  | Playing
  | GameOver
deriving DecidableEq

/-- The phase encoded by the `start_screen` / `game_over` flags, with
`start_screen` taking precedence exactly as in the drawing and event
branches of `game_loop`. -/
def GameState.phase (s : GameState) : Phase :=
  if s.start_screen then .StartScreen
  else if s.game_over then .GameOver
  else .Playing

/-- The `K_SPACE` branch of the event loop (src/project_1.py,
lines 128-135): on the start screen it starts the game, while playing it
makes the bird jump, after a game over it resets (without touching
`pipe_spawn_timer`, which is not among the variables `reset_game`
returns). -/
def handleSpace (s : GameState) : GameState :=
  if s.start_screen then
    { s with start_screen := false }
  else if !s.game_over then
    { s with bird := s.bird.jump }
  else
    let (bird, pipes, score, game_over) := reset_game
    { s with bird := bird, pipes := pipes, score := score,
             game_over := game_over, start_screen := false }

/-- The per-pipe loop of `game_loop` (src/project_1.py, lines 149-157):
each pipe is moved, dropped from the list if off screen, and — whether or
not it was just dropped — scored if its right edge is strictly left of
the bird's x and it has not been scored before.  Returns the surviving
list and the new score. -/
def stepPipes (birdX : ℤ) : List Pipe → ℤ → List Pipe × ℤ
  | [], score => ([], score)
  | p :: rest, score =>
    let p := p.update
    let keep := !p.off_screen
    let flips := !p.passed && decide (p.x + PIPE_WIDTH < birdX)
    let p := if flips then { p with passed := true } else p
    let score := if flips then score + 1 else score
    let (rest', score') := stepPipes birdX rest score
    (if keep then p :: rest' else rest', score')

/-- The game-logic block of one loop iteration (src/project_1.py,
lines 137-168), guarded by `not start_screen and not game_over`:
bird update, spawn-timer handling (`randHeight` stands for the
`random.randint(100, 250)` draw), the pipe loop, the ground check with
its snap, and the pipe collision checks. -/
def stepLogic (s : GameState) (randHeight : ℤ) : GameState :=
  if s.start_screen || s.game_over then s
  else
    let bird := s.bird.update
    let timer := s.pipe_spawn_timer + 1
    let (pipes, timer) :=
      if timer ≥ pipe_spawn_interval then
        (s.pipes ++ [Pipe.new SCREEN_WIDTH randHeight], 0)
      else
        (s.pipes, timer)
    let (pipes, score) := stepPipes bird.rect.x pipes s.score
    let (bird, game_over) :=
      if bird.rect.bottom ≥ SCREEN_HEIGHT - GROUND_HEIGHT then
        ({ bird with rect := bird.rect.setBottom (SCREEN_HEIGHT - GROUND_HEIGHT) }, true)
      else
        (bird, s.game_over)
    let game_over := game_over ||
      pipes.any fun p =>
        bird.rect.colliderect p.top_rect || bird.rect.colliderect p.bottom_rect
    { s with bird := bird, pipes := pipes, score := score,
             game_over := game_over, pipe_spawn_timer := timer }

/-- One full iteration of the main loop: the event dispatch (here reduced
to whether a SPACE keydown arrived this frame) followed by the logic
block. -/
def frame (s : GameState) (space : Bool) (randHeight : ℤ) : GameState :=
  stepLogic (if space then handleSpace s else s) randHeight

/-- The state `game_loop` starts from (src/project_1.py, lines 118-122). -/
def initState : GameState :=
  let (bird, pipes, score, game_over) := reset_game
  { bird := bird, pipes := pipes, score := score, game_over := game_over,
    start_screen := true, pipe_spawn_timer := 0 }

/-- Running the loop over a list of per-frame inputs
(SPACE pressed?, randint draw). -/
def run (s : GameState) : List (Bool × ℤ) → GameState
  | [] => s
  | (sp, h) :: rest => run (frame s sp h) rest

example : ((-7 : ℤ) / 2) = -4 := by decide
example : Bird.new.rect = ⟨235, 285, 30, 30⟩ := by decide
example : (Bird.new.update).rect.y = 285 ∧ (Bird.new.update).velocity = 1/2 := by decide
example : ratTrunc (-5/2) = -2 := by decide
example : ((Pipe.new 1000 100).update).x = 997 := by decide

/-! Derived notions used by the statements -/

/-- The pipe's centre-independent vertical middle of a rect,
`pygame.Rect.centery` (integer division, as pygame computes it). -/
def Rect.centery (r : Rect) : ℤ := r.y + r.h / 2

/-- Overlap on both axes, inclusive of touching edges.  This is the
collision notion the specification ascribes to the game; it is stated
from the spec's words in order to compare it against the source's
`colliderect`. -/
def overlapIncl (a b : Rect) : Prop :=
  a.x ≤ b.x + b.w ∧ b.x ≤ a.x + a.w ∧ a.y ≤ b.y + b.h ∧ b.y ≤ a.y + a.h

instance (a b : Rect) : Decidable (overlapIncl a b) := by
  unfold overlapIncl; infer_instance

/-- Strict overlap on both axes: touching edges do not count. -/
def overlapStrict (a b : Rect) : Prop :=
  a.x < b.x + b.w ∧ b.x < a.x + a.w ∧ a.y < b.y + b.h ∧ b.y < a.y + a.h

instance (a b : Rect) : Decidable (overlapStrict a b) := by
  unfold overlapStrict; infer_instance

/-- For rectangles with nonnegative sizes (every rect the game builds),
`colliderect` is exactly strict overlap on both axes. -/
theorem colliderect_iff_overlapStrict (a b : Rect)
    (haw : 0 ≤ a.w) (hah : 0 ≤ a.h) (hbw : 0 ≤ b.w) (hbh : 0 ≤ b.h) :
    a.colliderect b = true ↔ overlapStrict a b := by
  unfold Rect.colliderect overlapStrict
  rw [min_eq_left (by linarith : a.x ≤ a.x + a.w),
      min_eq_left (by linarith : a.y ≤ a.y + a.h),
      min_eq_left (by linarith : b.x ≤ b.x + b.w),
      min_eq_left (by linarith : b.y ≤ b.y + b.h),
      max_eq_right (by linarith : a.x ≤ a.x + a.w),
      max_eq_right (by linarith : a.y ≤ a.y + a.h),
      max_eq_right (by linarith : b.x ≤ b.x + b.w),
      max_eq_right (by linarith : b.y ≤ b.y + b.h)]
  simp only [Bool.and_eq_true, decide_eq_true_eq, gt_iff_lt]
  tauto

/-- Unfolding `Bird.update` into a single conditional, for case analysis. -/
theorem bird_update_eq (b : Bird) :
    b.update =
      (if ratTrunc ((b.rect.y : ℚ) + (b.velocity + BIRD_GRAVITY)) < 0 then
        { b with rect := { b.rect with y := 0 }, velocity := 0 }
      else
        { b with
          rect := { b.rect with y := ratTrunc ((b.rect.y : ℚ) + (b.velocity + BIRD_GRAVITY)) },
          velocity := b.velocity + BIRD_GRAVITY }) := rfl

/-- The scoring test the pipe loop applies to an already-moved pipe. -/
def flipsAfter (birdX : ℤ) (q : Pipe) : Bool :=
  !q.passed && decide (q.x + PIPE_WIDTH < birdX)

/-- Marking an already-moved pipe as scored when the scoring test fires. -/
def scoreMark (birdX : ℤ) (q : Pipe) : Pipe :=
  if flipsAfter birdX q then { q with passed := true } else q

/-- What one loop iteration does to one pipe: move it, then possibly mark
it scored. -/
def procPipe (birdX : ℤ) (p : Pipe) : Pipe :=
  scoreMark birdX p.update

/-- Number of scored pipes in a list, as an integer. -/
def countScored (ps : List Pipe) : ℤ :=
  (ps.countP fun p => p.passed : ℕ)

theorem scoreMark_x (birdX : ℤ) (q : Pipe) : (scoreMark birdX q).x = q.x := by
  unfold scoreMark; split <;> rfl

theorem scoreMark_off_screen (birdX : ℤ) (q : Pipe) :
    (scoreMark birdX q).off_screen = q.off_screen := by
  unfold Pipe.off_screen; rw [scoreMark_x]

theorem scoreMark_passed (birdX : ℤ) (q : Pipe) :
    (scoreMark birdX q).passed = (q.passed || decide (q.x + PIPE_WIDTH < birdX)) := by
  unfold scoreMark flipsAfter
  cases hq : q.passed <;> simp [hq] <;> split <;> simp_all

theorem update_passed (p : Pipe) : (p.update).passed = p.passed := rfl

theorem mark_off_screen (q : Pipe) :
    ({ q with passed := true } : Pipe).off_screen = q.off_screen := rfl

theorem update_dims_top (p : Pipe) :
    (p.update).top_rect.w = p.top_rect.w ∧ (p.update).top_rect.h = p.top_rect.h := ⟨rfl, rfl⟩

theorem update_dims_bottom (p : Pipe) :
    (p.update).bottom_rect.w = p.bottom_rect.w ∧ (p.update).bottom_rect.h = p.bottom_rect.h :=
  ⟨rfl, rfl⟩

/-- The pipe loop of `game_loop`, re-expressed in the two-phase form: the
surviving pipes are the moved-and-possibly-marked pipes that are not off
screen, and the score grows by the number of pipes whose scoring test
fired this tick. -/
theorem stepPipes_eq (birdX : ℤ) (ps : List Pipe) (sc : ℤ) :
    stepPipes birdX ps sc =
      ((ps.map (procPipe birdX)).filter (fun p => !p.off_screen),
       sc + (ps.countP fun p => flipsAfter birdX p.update : ℕ)) := by
  induction ps generalizing sc with
  | nil => simp [stepPipes]
  | cons p rest ih =>
    show (let q := p.update
          let keep := !q.off_screen
          let flips := !q.passed && decide (q.x + PIPE_WIDTH < birdX)
          let q := if flips then { q with passed := true } else q
          let sc := if flips then sc + 1 else sc
          let r := stepPipes birdX rest sc
          ((if keep then q :: r.1 else r.1, r.2) : List Pipe × ℤ)) = _
    simp only [ih, List.map_cons, List.filter_cons, List.countP_cons, procPipe, scoreMark,
      scoreMark_off_screen, flipsAfter]
    by_cases hf : (!(p.update).passed && decide ((p.update).x + PIPE_WIDTH < birdX)) = true <;>
      by_cases hk : (p.update).off_screen = true <;>
        simp [hf, hk, scoreMark, flipsAfter, mark_off_screen] <;> push_cast <;> ring_nf

theorem countScored_append (a b : List Pipe) :
    countScored (a ++ b) = countScored a + countScored b := by
  unfold countScored; rw [List.countP_append]; push_cast; ring

theorem countScored_map_procPipe (birdX : ℤ) (ps : List Pipe) :
    countScored (ps.map (procPipe birdX)) =
      countScored ps + (ps.countP fun p => flipsAfter birdX p.update : ℕ) := by
  induction ps with
  | nil => simp [countScored]
  | cons p rest ih =>
    simp only [List.map_cons, countScored, List.countP_cons] at ih ⊢
    rw [procPipe, scoreMark_passed, update_passed]
    have hflip : flipsAfter birdX p.update
        = (!p.passed && decide ((p.update).x + PIPE_WIDTH < birdX)) := by
      unfold flipsAfter; rw [update_passed]
    rw [hflip]
    cases hp : p.passed <;> cases hc : decide ((p.update).x + PIPE_WIDTH < birdX) <;>
      simp only [hp, hc, update_passed, Bool.false_or, Bool.true_or, Bool.not_false,
        Bool.not_true, Bool.true_and, Bool.false_and, if_true, if_false] <;>
      push_cast <;> omega

theorem countScored_filter_split (f : Pipe → Bool) (ps : List Pipe) :
    countScored (ps.filter f) + countScored (ps.filter fun p => !f p) = countScored ps := by
  induction ps with
  | nil => simp [countScored]
  | cons p rest ih =>
    simp only [List.filter_cons]
    cases hf : f p <;>
      simp only [Bool.not_false, Bool.not_true, if_true, if_false, countScored,
        List.countP_cons] at ih ⊢ <;>
      cases hp : p.passed <;> simp [hp] <;> push_cast <;> omega

/-! A two-phase reading of the logic block

`stepLogic` is a single pass with interleaved mutation; the definitions
below name its pieces so the per-tick theorems can speak about them. -/

/-- The pipe list after the spawn-timer block of this tick. -/
def spawnedPipes (s : GameState) (h : ℤ) : List Pipe :=
  if s.pipe_spawn_timer + 1 ≥ pipe_spawn_interval then
    s.pipes ++ [Pipe.new SCREEN_WIDTH h]
  else s.pipes

/-- The pipes still in the stream at the end of this tick. -/
def livePipes (s : GameState) (h : ℤ) : List Pipe :=
  ((spawnedPipes s h).map (procPipe (s.bird.update).rect.x)).filter fun p => !p.off_screen

/-- The pipes this tick retires from the stream. -/
def retiredPipes (s : GameState) (h : ℤ) : List Pipe :=
  ((spawnedPipes s h).map (procPipe (s.bird.update).rect.x)).filter fun p => p.off_screen

/-- How many scoring tests fire this tick. -/
def flipCount (s : GameState) (h : ℤ) : ℕ :=
  (spawnedPipes s h).countP fun p => flipsAfter (s.bird.update).rect.x p.update

/-- The ground-collision test of this tick. -/
def groundHit (s : GameState) : Bool :=
  decide ((s.bird.update).rect.bottom ≥ SCREEN_HEIGHT - GROUND_HEIGHT)

/-- The bird at the end of this tick: updated, and snapped to the ground
line when the ground test fired. -/
def groundBird (s : GameState) : Bird :=
  if groundHit s then
    { s.bird.update with
      rect := (s.bird.update).rect.setBottom (SCREEN_HEIGHT - GROUND_HEIGHT) }
  else s.bird.update

/-- The pipe-collision test of this tick, applied to the end-of-tick bird
and the surviving pipes, as the source does. -/
def anyCollide (s : GameState) (h : ℤ) : Bool :=
  (livePipes s h).any fun p =>
    (groundBird s).rect.colliderect p.top_rect ||
    (groundBird s).rect.colliderect p.bottom_rect

theorem stepLogic_frozen (s : GameState) (h : ℤ)
    (hfrozen : s.start_screen = true ∨ s.game_over = true) :
    stepLogic s h = s := by
  unfold stepLogic
  rcases hfrozen with hf | hf <;> simp [hf]

/-- What one playing tick does, field by field. -/
theorem stepLogic_spec (s : GameState) (h : ℤ)
    (hs : s.start_screen = false) (hg : s.game_over = false) :
    (stepLogic s h).pipes = livePipes s h ∧
    (stepLogic s h).score = s.score + (flipCount s h : ℕ) ∧
    (stepLogic s h).bird = groundBird s ∧
    (stepLogic s h).game_over = (groundHit s || anyCollide s h) ∧
    (stepLogic s h).start_screen = false ∧
    (stepLogic s h).pipe_spawn_timer =
      (if s.pipe_spawn_timer + 1 ≥ pipe_spawn_interval then 0 else s.pipe_spawn_timer + 1) := by
  unfold stepLogic livePipes flipCount anyCollide groundBird groundHit livePipes
  simp only [hs, hg, Bool.false_or, if_false]
  by_cases hspawn : s.pipe_spawn_timer + 1 ≥ pipe_spawn_interval <;>
    simp only [spawnedPipes, hspawn, if_true, if_false, stepPipes_eq] <;>
    by_cases hgr : (s.bird.update).rect.bottom ≥ SCREEN_HEIGHT - GROUND_HEIGHT <;>
      simp [hgr, hspawn, spawnedPipes, hs]

/-! Ghost-instrumented run for the score/scored-count invariant

The source deletes a pipe from the list the tick its right edge leaves
the screen, while the score it contributed persists.  To relate score and
scored flags over a whole session we therefore also accumulate the
retired pipes; an activate-reset (which begins a new session) clears the
accumulator along with the rest of the session state. -/

def gframe (g : GameState × List Pipe) (space : Bool) (h : ℤ) : GameState × List Pipe :=
  let reset := space && !g.1.start_screen && g.1.game_over
  let s := if space then handleSpace g.1 else g.1
  let retired := if reset then [] else g.2
  if s.start_screen || s.game_over then (stepLogic s h, retired)
  else (stepLogic s h, retired ++ retiredPipes s h)

def grun (g : GameState × List Pipe) : List (Bool × ℤ) → GameState × List Pipe
  | [] => g
  | (sp, h) :: rest => grun (gframe g sp h) rest

theorem fst_ite_pair {c : Prop} [Decidable c] (a : GameState) (x y : List Pipe) :
    (if c then (a, x) else (a, y)).1 = a := by
  split <;> rfl

theorem gframe_fst (g : GameState × List Pipe) (sp : Bool) (h : ℤ) :
    (gframe g sp h).1 = frame g.1 sp h := by
  simp only [gframe, frame, fst_ite_pair]

theorem grun_fst (inputs : List (Bool × ℤ)) (g : GameState × List Pipe) :
    (grun g inputs).1 = run g.1 inputs := by
  induction inputs generalizing g with
  | nil => rfl
  | cons i rest ih =>
    obtain ⟨sp, h⟩ := i
    show (grun (gframe g sp h) rest).1 = run (frame g.1 sp h) rest
    rw [ih, gframe_fst]

/-- The session invariant: the score equals the number of scored pipes,
counting both the pipes still in the stream and the retired ones. -/
def SessionInv (g : GameState × List Pipe) : Prop :=
  g.1.score = countScored g.1.pipes + countScored g.2

theorem countScored_live_retired (s : GameState) (h : ℤ) :
    countScored (livePipes s h) + countScored (retiredPipes s h) =
      countScored ((spawnedPipes s h).map (procPipe (s.bird.update).rect.x)) := by
  unfold livePipes retiredPipes
  have hsplit := countScored_filter_split (fun p => !p.off_screen)
    ((spawnedPipes s h).map (procPipe (s.bird.update).rect.x))
  have hcongr : List.filter (fun p => !(!p.off_screen))
        ((spawnedPipes s h).map (procPipe (s.bird.update).rect.x)) =
      List.filter (fun p => p.off_screen)
        ((spawnedPipes s h).map (procPipe (s.bird.update).rect.x)) := by
    apply List.filter_congr
    intro p _
    simp
  rw [hcongr] at hsplit
  exact hsplit

theorem countScored_spawnedPipes (s : GameState) (h : ℤ) :
    countScored (spawnedPipes s h) = countScored s.pipes := by
  unfold spawnedPipes
  split
  · rw [countScored_append]
    have : countScored [Pipe.new SCREEN_WIDTH h] = 0 := rfl
    rw [this, add_zero]
  · rfl

theorem handleSpace_score_pipes (s : GameState) (hg : s.game_over = false) :
    (handleSpace s).score = s.score ∧ (handleSpace s).pipes = s.pipes := by
  unfold handleSpace
  cases hss : s.start_screen <;> simp [hss, hg]

theorem sessionInv_gframe (g : GameState × List Pipe) (sp : Bool) (h : ℤ)
    (hi : SessionInv g) : SessionInv (gframe g sp h) := by
  obtain ⟨s, r⟩ := g
  have hA : SessionInv (if sp then handleSpace s else s,
      if (sp && !s.start_screen && s.game_over) then ([] : List Pipe) else r) := by
    cases hsp : sp with
    | false => simpa [hsp] using hi
    | true =>
      cases hg : s.game_over with
      | false =>
        have := handleSpace_score_pipes s hg
        simpa [hsp, hg, SessionInv, this.1, this.2] using hi
      | true =>
        cases hss : s.start_screen with
        | true => simpa [hsp, hg, hss, SessionInv, handleSpace, hss] using hi
        | false =>
          simp [hsp, hg, hss, SessionInv, handleSpace, countScored, reset_game]
  set s₁ := if sp then handleSpace s else s with hs₁
  set r₁ := if (sp && !s.start_screen && s.game_over) then ([] : List Pipe) else r with hr₁
  show SessionInv (if s₁.start_screen || s₁.game_over then (stepLogic s₁ h, r₁)
    else (stepLogic s₁ h, r₁ ++ retiredPipes s₁ h))
  split
  · next hfrozen =>
    rw [stepLogic_frozen s₁ h (by simpa [Bool.or_eq_true] using hfrozen)]
    exact hA
  · next hlive =>
    rw [Bool.or_eq_true, not_or, Bool.not_eq_true, Bool.not_eq_true] at hlive
    obtain ⟨hss, hgo⟩ := hlive
    obtain ⟨hpipes, hscore, -, -, -, -⟩ := stepLogic_spec s₁ h hss hgo
    show (stepLogic s₁ h).score =
      countScored (stepLogic s₁ h).pipes + countScored (r₁ ++ retiredPipes s₁ h)
    rw [hpipes, hscore, countScored_append]
    have hsplit := countScored_live_retired s₁ h
    have hmap := countScored_map_procPipe (s₁.bird.update).rect.x (spawnedPipes s₁ h)
    have hspawn := countScored_spawnedPipes s₁ h
    have hAi : s₁.score = countScored s₁.pipes + countScored r₁ := hA
    unfold flipCount
    omega

theorem sessionInv_grun (inputs : List (Bool × ℤ)) (g : GameState × List Pipe)
    (hi : SessionInv g) : SessionInv (grun g inputs) := by
  induction inputs generalizing g with
  | nil => exact hi
  | cons i rest ih =>
    obtain ⟨sp, h⟩ := i
    exact ih _ (sessionInv_gframe g sp h hi)

theorem frame_score_mono (s : GameState) (sp : Bool) (h : ℤ)
    (hg : s.game_over = false) : s.score ≤ (frame s sp h).score := by
  unfold frame
  have hsc : (if sp then handleSpace s else s).score = s.score := by
    cases hsp : sp with
    | false => rfl
    | true => exact (handleSpace_score_pipes s hg).1
  set s₁ := if sp then handleSpace s else s with hs₁
  by_cases hfrozen : s₁.start_screen = true ∨ s₁.game_over = true
  · rw [stepLogic_frozen s₁ h hfrozen, hsc]
  · push_neg at hfrozen
    have hss : s₁.start_screen = false := by simpa using hfrozen.1
    have hgo : s₁.game_over = false := by simpa using hfrozen.2
    obtain ⟨-, hscore, -, -, -, -⟩ := stepLogic_spec s₁ h hss hgo
    rw [hscore, hsc]
    omega

theorem pipe_update_x_iter (n : ℕ) (p : Pipe) :
    ((Pipe.update)^[n] p).x = p.x - PIPE_SPEED * n := by
  induction n generalizing p with
  | zero => simp
  | succ n ih =>
    rw [Function.iterate_succ_apply, ih]
    unfold Pipe.update
    push_cast
    ring

/-! The claims -/

/-- C3 (amended): The avatar starts with its rect centred at
`(SCREEN_WIDTH // 4, SCREEN_HEIGHT // 2)` and velocity `0`; after one
tick with gravity `0.5` the velocity is `0.5`, but the vertical position
is unchanged at `SCREEN_HEIGHT // 2`, because the position lives in an
integer rect and the float increment `0.5` is truncated away on
assignment. -/
theorem first_tick_velocity_and_truncated_position :
    Bird.new.velocity = 0 ∧
    Bird.new.rect.centery = SCREEN_HEIGHT / 2 ∧
    (Bird.new.update).velocity = BIRD_GRAVITY ∧
    (Bird.new.update).rect.y = Bird.new.rect.y ∧
    (Bird.new.update).rect.centery = SCREEN_HEIGHT / 2 := by
  decide

/-- C3 (counterexample): After one tick the velocity is `0.5` as the
claim says, but the avatar's vertical position is not
`SCREEN_HEIGHT/2 + 0.5`: the integer rect truncated the half-pixel away
and the centre is still exactly `SCREEN_HEIGHT/2 = 300`. -/
theorem first_tick_position_cex :
    (Bird.new.update).velocity = 1/2 ∧
    ¬ (((Bird.new.update).rect.centery : ℚ) = (SCREEN_HEIGHT : ℚ) / 2 + 1/2) := by
  decide

/-- C4 (amended): A pipe spawned at `x = 1000` (any gap height) is at
`x = -2` after 334 ticks, but `off_screen` is still false there (the
right edge sits at `48 > 0`); `off_screen` first becomes true after 351
ticks, when `x = -53`. -/
theorem pipe_scroll_and_offscreen (h : ℤ) :
    ((Pipe.update)^[334] (Pipe.new 1000 h)).x = -2 ∧
    ((Pipe.update)^[334] (Pipe.new 1000 h)).off_screen = false ∧
    ((Pipe.update)^[350] (Pipe.new 1000 h)).off_screen = false ∧
    ((Pipe.update)^[350] (Pipe.new 1000 h)).x = -50 ∧
    ((Pipe.update)^[351] (Pipe.new 1000 h)).off_screen = true := by
  have hx : ∀ n : ℕ, ((Pipe.update)^[n] (Pipe.new 1000 h)).x = 1000 - PIPE_SPEED * n :=
    fun n => pipe_update_x_iter n (Pipe.new 1000 h)
  refine ⟨?_, ?_, ?_, ?_, ?_⟩ <;>
    first
      | (rw [hx 334]; decide)
      | (rw [hx 350]; decide)
      | (unfold Pipe.off_screen
         first
           | (rw [hx 334]; decide)
           | (rw [hx 350]; decide)
           | (rw [hx 351]; decide))

theorem pipe_scroll_witness :
    ((Pipe.update)^[334] (Pipe.new 1000 100)).x = -2 ∧
    ((Pipe.update)^[351] (Pipe.new 1000 100)).off_screen = true :=
  ⟨(pipe_scroll_and_offscreen 100).1, (pipe_scroll_and_offscreen 100).2.2.2.2⟩

/-- C4 (counterexample): At gap height `100`, after 334 ticks the
pipe is at `x = -2` yet `is_off_screen()` returns false, contradicting
the claim that it is off screen at that point. -/
theorem pipe_offscreen_at_334_cex :
    ((Pipe.update)^[334] (Pipe.new 1000 100)).x = -2 ∧
    ((Pipe.update)^[334] (Pipe.new 1000 100)).off_screen = false := by
  decide

/-- The bounds of the `random.randint` call that draws a pipe height
(src/project_1.py, line 144); `randint` is inclusive on both ends. -/
def randint_low : ℤ := 100

def randint_high : ℤ := SCREEN_HEIGHT - GROUND_HEIGHT - PIPE_GAP - 100

/-- C8: The spawn draw `random.randint(100, SCREEN_HEIGHT -
GROUND_HEIGHT - PIPE_GAP - 100)` ranges over the closed interval
`[100, 250]`, and for every gap top in that range the spawned pipe's two
barrier rects both have strictly positive height. -/
theorem spawn_gap_range_and_positive_heights (h : ℤ)
    (h1 : randint_low ≤ h) (h2 : h ≤ randint_high) :
    randint_low = 100 ∧
    randint_high = SCREEN_HEIGHT - GROUND_HEIGHT - PIPE_GAP - 100 ∧
    randint_high = 250 ∧
    (Pipe.new SCREEN_WIDTH h).height = h ∧
    0 < (Pipe.new SCREEN_WIDTH h).top_rect.h ∧
    0 < (Pipe.new SCREEN_WIDTH h).bottom_rect.h := by
  have h1' : (100 : ℤ) ≤ h := h1
  have h2' : h ≤ 250 := h2
  refine ⟨rfl, rfl, by decide, rfl, ?_, ?_⟩
  · show 0 < h
    omega
  · show 0 < SCREEN_HEIGHT - (h + PIPE_GAP) - GROUND_HEIGHT
    unfold SCREEN_HEIGHT PIPE_GAP GROUND_HEIGHT
    omega

theorem spawn_gap_range_witness :
    randint_low ≤ 100 ∧ (100 : ℤ) ≤ randint_high ∧
    (0 < (Pipe.new SCREEN_WIDTH 100).top_rect.h ∧
     0 < (Pipe.new SCREEN_WIDTH 100).bottom_rect.h) :=
  ⟨by decide, by decide,
   (spawn_gap_range_and_positive_heights 100 (by decide) (by decide)).2.2.2.2⟩

/-- C9: `Bird.update` leaves the horizontal position unchanged, and
either the truncated new top edge would be negative — in which case the
top is clamped to `0` and the velocity reset to `0` — or the velocity is
the previous velocity plus the gravity constant and the vertical position
is the truncated sum. -/
theorem bird_update_velocity_and_clamp (b : Bird) :
    (b.update).rect.x = b.rect.x ∧
    (if ratTrunc ((b.rect.y : ℚ) + (b.velocity + BIRD_GRAVITY)) < 0 then
        (b.update).rect.top = 0 ∧ (b.update).velocity = 0
      else
        (b.update).velocity = b.velocity + BIRD_GRAVITY ∧
        (b.update).rect.y = ratTrunc ((b.rect.y : ℚ) + (b.velocity + BIRD_GRAVITY))) := by
  by_cases hc : ratTrunc ((b.rect.y : ℚ) + (b.velocity + BIRD_GRAVITY)) < 0
  · simp [bird_update_eq, hc, Rect.top]
  · simp [bird_update_eq, hc, Rect.top]

theorem bird_update_witness :
    (Bird.new.update).rect.x = Bird.new.rect.x :=
  (bird_update_velocity_and_clamp Bird.new).1

/-- C10: A SPACE press on the start screen only clears the
`start_screen` flag, moving the phase to `Playing`: the bird (position
and velocity), the pipe list, the score and the spawn timer are all
untouched by the dispatch itself. -/
theorem activate_on_start_screen (s : GameState)
    (hss : s.start_screen = true) (hgo : s.game_over = false) :
    handleSpace s = { s with start_screen := false } ∧
    s.phase = Phase.StartScreen ∧
    (handleSpace s).phase = Phase.Playing ∧
    (handleSpace s).bird = s.bird ∧
    (handleSpace s).pipes = s.pipes ∧
    (handleSpace s).score = s.score ∧
    (handleSpace s).pipe_spawn_timer = s.pipe_spawn_timer := by
  have h1 : handleSpace s = { s with start_screen := false } := by
    unfold handleSpace
    simp [hss]
  have hph0 : s.phase = Phase.StartScreen := by
    unfold GameState.phase
    simp [hss]
  have hph1 : (handleSpace s).phase = Phase.Playing := by
    rw [h1]
    unfold GameState.phase
    simp [hgo]
  exact ⟨h1, hph0, hph1, by rw [h1], by rw [h1], by rw [h1], by rw [h1]⟩

theorem activate_on_start_screen_witness :
    initState.start_screen = true ∧ initState.game_over = false ∧
    (handleSpace initState).phase = Phase.Playing ∧
    (handleSpace initState).pipe_spawn_timer = initState.pipe_spawn_timer := by
  have T := activate_on_start_screen initState (by decide) (by decide)
  exact ⟨by decide, by decide, T.2.2.1, T.2.2.2.2.2.2⟩

/-- C1 (amended): A SPACE press in the game-over phase rebuilds the
session through `reset_game`: score `0`, no pipes, a fresh bird at the
fixed start position with zero velocity, phase `Playing` — but the spawn
timer keeps its pre-reset value, because `pipe_spawn_timer` is not among
the variables `reset_game` reinitialises. -/
theorem activate_after_gameover_resets_session (s : GameState)
    (hss : s.start_screen = false) (hgo : s.game_over = true) :
    (handleSpace s).score = 0 ∧
    (handleSpace s).pipes = [] ∧
    (handleSpace s).bird = Bird.new ∧
    Bird.new.rect.x = 235 ∧ Bird.new.rect.y = 285 ∧ Bird.new.velocity = 0 ∧
    (handleSpace s).phase = Phase.Playing ∧
    (handleSpace s).pipe_spawn_timer = s.pipe_spawn_timer := by
  have h1 : handleSpace s = ⟨Bird.new, [], 0, false, false, s.pipe_spawn_timer⟩ := by
    unfold handleSpace reset_game
    simp [hss, hgo]
  refine ⟨by rw [h1], by rw [h1], by rw [h1], by decide, by decide, by decide, ?_, by rw [h1]⟩
  unfold GameState.phase
  simp [h1]

theorem activate_after_gameover_witness :
    ∃ s : GameState, s.start_screen = false ∧ s.game_over = true ∧
      (handleSpace s).score = 0 ∧ (handleSpace s).pipes = [] ∧
      (handleSpace s).phase = Phase.Playing ∧
      (handleSpace s).pipe_spawn_timer = s.pipe_spawn_timer := by
  refine ⟨⟨Bird.new, [], 5, true, false, 37⟩, by decide, by decide, ?_⟩
  have T := activate_after_gameover_resets_session ⟨Bird.new, [], 5, true, false, 37⟩
    (by decide) (by decide)
  exact ⟨T.1, T.2.1, T.2.2.2.2.2.2.1, T.2.2.2.2.2.2.2⟩

/-- C1 (counterexample): A reachable game-over state (start the game,
then let the bird fall for 27 more frames: it hits the ground on tick 28
with the spawn timer at 28); the SPACE reset leaves the timer at 28, not
0. -/
def groundCrashRun : GameState :=
  (fun s => frame s false 0)^[27] (frame initState true 0)

theorem activate_after_gameover_timer_cex :
    groundCrashRun.game_over = true ∧
    groundCrashRun.start_screen = false ∧
    (handleSpace groundCrashRun).pipe_spawn_timer = 28 ∧
    ¬ ((handleSpace groundCrashRun).pipe_spawn_timer = 0) := by
  decide

/-- C7: On a playing tick whose updated bird has its bottom edge at
or below the ground line, the phase becomes `GameOver` and the bird's
bottom edge is snapped to exactly `SCREEN_HEIGHT - GROUND_HEIGHT`. -/
theorem ground_hit_gameover_and_snap (s : GameState) (h : ℤ)
    (hss : s.start_screen = false) (hgo : s.game_over = false)
    (hhit : (s.bird.update).rect.bottom ≥ SCREEN_HEIGHT - GROUND_HEIGHT) :
    (stepLogic s h).phase = Phase.GameOver ∧
    (stepLogic s h).bird.rect.bottom = SCREEN_HEIGHT - GROUND_HEIGHT := by
  obtain ⟨-, -, hbird, hgover, hssf, -⟩ := stepLogic_spec s h hss hgo
  have hgh : groundHit s = true := decide_eq_true hhit
  constructor
  · unfold GameState.phase
    rw [hssf, hgover, hgh]
    simp
  · rw [hbird]
    unfold groundBird
    rw [hgh]
    simp only [if_true]
    unfold Rect.bottom Rect.setBottom
    simp

theorem ground_hit_witness :
    (((⟨⟨⟨235, 469, 30, 30⟩, 1⟩, [], 0, false, false, 0⟩ : GameState).bird.update).rect.bottom
        ≥ SCREEN_HEIGHT - GROUND_HEIGHT) ∧
    (stepLogic ⟨⟨⟨235, 469, 30, 30⟩, 1⟩, [], 0, false, false, 0⟩ 100).phase = Phase.GameOver ∧
    (stepLogic ⟨⟨⟨235, 469, 30, 30⟩, 1⟩, [], 0, false, false, 0⟩ 100).bird.rect.bottom
      = SCREEN_HEIGHT - GROUND_HEIGHT := by
  have T := ground_hit_gameover_and_snap ⟨⟨⟨235, 469, 30, 30⟩, 1⟩, [], 0, false, false, 0⟩ 100
    (by decide) (by decide) (by decide)
  exact ⟨by decide, T.1, T.2⟩

/-- C6: Moving a pipe never changes its `scored` flag; the scoring
step never clears a set flag (so over a pipe's lifetime the flag flips
false-to-true at most once); a flag is set only on a tick where the
moved pipe's right edge is strictly left of the avatar's x-position; and
the pipe loop adds to the score exactly the number of flags set this
tick. -/
theorem scored_flag_once_and_strictly_left (birdX : ℤ) (ps : List Pipe) (sc : ℤ) :
    (∀ p : Pipe, (p.update).passed = p.passed) ∧
    (∀ p : Pipe, p.passed = true → (procPipe birdX p).passed = true) ∧
    (∀ p : Pipe, (procPipe birdX p).passed = true → p.passed = false →
        (p.update).x + PIPE_WIDTH < birdX) ∧
    (stepPipes birdX ps sc).2 = sc + (ps.countP fun p => flipsAfter birdX p.update : ℕ) := by
  refine ⟨fun p => update_passed p, ?_, ?_, ?_⟩
  · intro p hp
    rw [procPipe, scoreMark_passed, update_passed, hp, Bool.true_or]
  · intro p h1 h2
    rw [procPipe, scoreMark_passed, update_passed, h2, Bool.false_or] at h1
    exact of_decide_eq_true h1
  · rw [stepPipes_eq]

theorem scored_flag_witness :
    (((Pipe.new 180 100).update).passed = (Pipe.new 180 100).passed) ∧
    ((procPipe 235 { Pipe.new 180 100 with passed := true }).passed = true) ∧
    (((Pipe.new 180 100).update).x + PIPE_WIDTH < 235) ∧
    (stepPipes 235 [Pipe.new 180 100] 0).2 =
      0 + (([Pipe.new 180 100].countP fun p => flipsAfter 235 p.update : ℕ) : ℤ) := by
  have T := scored_flag_once_and_strictly_left 235 [Pipe.new 180 100] 0
  exact ⟨T.1 (Pipe.new 180 100),
         T.2.1 { Pipe.new 180 100 with passed := true } (by decide),
         T.2.2.1 (Pipe.new 180 100) (by decide) (by decide),
         T.2.2.2⟩

/-! Barrier collision (claim C2) -/

def pipeDims (p : Pipe) : Prop :=
  0 ≤ p.top_rect.w ∧ 0 ≤ p.top_rect.h ∧ 0 ≤ p.bottom_rect.w ∧ 0 ≤ p.bottom_rect.h

instance : DecidablePred pipeDims := fun p => by
  unfold pipeDims; infer_instance

theorem procPipe_dims (bx : ℤ) (p : Pipe) : pipeDims (procPipe bx p) ↔ pipeDims p := by
  unfold pipeDims procPipe scoreMark Pipe.update
  split <;> exact Iff.rfl

theorem bird_update_w (b : Bird) : (b.update).rect.w = b.rect.w := by
  rw [bird_update_eq]
  split <;> rfl

theorem bird_update_h (b : Bird) : (b.update).rect.h = b.rect.h := by
  rw [bird_update_eq]
  split <;> rfl

theorem groundBird_w (s : GameState) : (groundBird s).rect.w = s.bird.rect.w := by
  unfold groundBird Rect.setBottom
  split <;> exact bird_update_w s.bird

theorem groundBird_h (s : GameState) : (groundBird s).rect.h = s.bird.rect.h := by
  unfold groundBird Rect.setBottom
  split <;> exact bird_update_h s.bird

theorem groundBird_bottom_of_hit (s : GameState) (hgh : groundHit s = true) :
    (groundBird s).rect.bottom = SCREEN_HEIGHT - GROUND_HEIGHT := by
  unfold groundBird
  rw [hgh]
  simp only [if_true]
  unfold Rect.bottom Rect.setBottom
  simp

theorem groundBird_bottom_of_miss (s : GameState) (hgh : groundHit s = false) :
    (groundBird s).rect.bottom < SCREEN_HEIGHT - GROUND_HEIGHT := by
  have hlt : ¬ ((s.bird.update).rect.bottom ≥ SCREEN_HEIGHT - GROUND_HEIGHT) :=
    of_decide_eq_false hgh
  unfold groundBird
  rw [hgh]
  simp
  omega

theorem pipe_new_dims (x h : ℤ) (hh0 : 0 ≤ h)
    (hh1 : h ≤ SCREEN_HEIGHT - GROUND_HEIGHT - PIPE_GAP) : pipeDims (Pipe.new x h) := by
  unfold SCREEN_HEIGHT GROUND_HEIGHT PIPE_GAP at hh1
  refine ⟨(by decide : (0 : ℤ) ≤ PIPE_WIDTH), hh0, (by decide : (0 : ℤ) ≤ PIPE_WIDTH), ?_⟩
  show 0 ≤ SCREEN_HEIGHT - (h + PIPE_GAP) - GROUND_HEIGHT
  unfold SCREEN_HEIGHT GROUND_HEIGHT PIPE_GAP
  omega

theorem livePipes_dims (s : GameState) (h : ℤ)
    (hp : ∀ p ∈ s.pipes, pipeDims p) (hnew : pipeDims (Pipe.new SCREEN_WIDTH h)) :
    ∀ p ∈ livePipes s h, pipeDims p := by
  intro p hmem
  unfold livePipes at hmem
  rw [List.mem_filter] at hmem
  obtain ⟨hmem, -⟩ := hmem
  rw [List.mem_map] at hmem
  obtain ⟨q, hq, rfl⟩ := hmem
  rw [procPipe_dims]
  unfold spawnedPipes at hq
  split at hq
  · rw [List.mem_append] at hq
    rcases hq with hq | hq
    · exact hp q hq
    · rw [List.mem_singleton] at hq
      rw [hq]
      exact hnew
  · exact hp q hq

/-- C2 (amended): On a playing tick, the game ends exactly when the
ground test fires or the end-of-tick avatar rect *strictly* overlaps a
surviving barrier rect on both axes.  `colliderect` uses strict
inequalities, so rectangles that merely touch along an edge are not a
collision (contrary to the claim's inclusive-overlap reading). -/
theorem gameover_iff_strict_overlap (s : GameState) (h : ℤ)
    (hss : s.start_screen = false) (hgo : s.game_over = false)
    (hbw : 0 ≤ s.bird.rect.w) (hbh : 0 ≤ s.bird.rect.h)
    (hp : ∀ p ∈ s.pipes, pipeDims p)
    (hh0 : 0 ≤ h) (hh1 : h ≤ SCREEN_HEIGHT - GROUND_HEIGHT - PIPE_GAP) :
    ((stepLogic s h).game_over = true ↔
      (stepLogic s h).bird.rect.bottom ≥ SCREEN_HEIGHT - GROUND_HEIGHT ∨
      ∃ p ∈ (stepLogic s h).pipes,
        overlapStrict (stepLogic s h).bird.rect p.top_rect ∨
        overlapStrict (stepLogic s h).bird.rect p.bottom_rect) := by
  obtain ⟨hpipes, -, hbird, hgover, -, -⟩ := stepLogic_spec s h hss hgo
  rw [hpipes, hbird, hgover]
  have hbw' : 0 ≤ (groundBird s).rect.w := by rw [groundBird_w]; exact hbw
  have hbh' : 0 ≤ (groundBird s).rect.h := by rw [groundBird_h]; exact hbh
  have hdims : ∀ p ∈ livePipes s h, pipeDims p :=
    livePipes_dims s h hp (pipe_new_dims SCREEN_WIDTH h hh0 hh1)
  cases hgh : groundHit s with
  | true =>
    simp only [Bool.true_or]
    constructor
    · intro _
      left
      rw [groundBird_bottom_of_hit s hgh]
    · intro _
      trivial
  | false =>
    simp only [Bool.false_or]
    have hmiss := groundBird_bottom_of_miss s hgh
    unfold anyCollide
    rw [List.any_eq_true]
    constructor
    · rintro ⟨p, hmem, hcol⟩
      right
      refine ⟨p, hmem, ?_⟩
      rw [Bool.or_eq_true] at hcol
      obtain h4 := hdims p hmem
      rcases hcol with hc | hc
      · exact Or.inl ((colliderect_iff_overlapStrict _ _ hbw' hbh' h4.1 h4.2.1).mp hc)
      · exact Or.inr ((colliderect_iff_overlapStrict _ _ hbw' hbh' h4.2.2.1 h4.2.2.2).mp hc)
    · rintro (hbot | ⟨p, hmem, hov⟩)
      · omega
      · refine ⟨p, hmem, ?_⟩
        rw [Bool.or_eq_true]
        obtain h4 := hdims p hmem
        rcases hov with hov | hov
        · exact Or.inl ((colliderect_iff_overlapStrict _ _ hbw' hbh' h4.1 h4.2.1).mpr hov)
        · exact Or.inr ((colliderect_iff_overlapStrict _ _ hbw' hbh' h4.2.2.1 h4.2.2.2).mpr hov)

/-- A playing state with one pipe whose barriers the bird is about to
pass between. -/
def overlapWitnessState : GameState :=
  ⟨⟨⟨235, 300, 30, 30⟩, 0⟩, [Pipe.new 250 250], 0, false, false, 0⟩

theorem gameover_iff_strict_overlap_witness :
    (∀ p ∈ overlapWitnessState.pipes, pipeDims p) ∧
    ((stepLogic overlapWitnessState 100).game_over = true ↔
      (stepLogic overlapWitnessState 100).bird.rect.bottom ≥ SCREEN_HEIGHT - GROUND_HEIGHT ∨
      ∃ p ∈ (stepLogic overlapWitnessState 100).pipes,
        overlapStrict (stepLogic overlapWitnessState 100).bird.rect p.top_rect ∨
        overlapStrict (stepLogic overlapWitnessState 100).bird.rect p.bottom_rect) :=
  ⟨by decide,
   gameover_iff_strict_overlap overlapWitnessState 100 (by decide) (by decide) (by decide)
     (by decide) (by decide) (by decide) (by decide)⟩

/-- A playing state set up so that after the tick the bird's bottom edge
exactly touches the bottom barrier's top edge while overlapping it
horizontally. -/
def touchState : GameState :=
  ⟨⟨⟨235, 370, 30, 30⟩, -1/2⟩, [Pipe.new 243 250], 0, false, false, 0⟩

/-- C2 (counterexample): With the avatar and a barrier touching
edge-on after the tick (inclusive overlap on both axes holds), the game
does **not** transition to `GameOver`: `colliderect` treats touching
edges as no collision, refuting the claim's "exact edge touching counts
as a collision". -/
theorem touching_edges_no_collision_cex :
    touchState.phase = Phase.Playing ∧
    (∃ p ∈ (stepLogic touchState 100).pipes,
      overlapIncl (stepLogic touchState 100).bird.rect p.bottom_rect ∧
      (stepLogic touchState 100).bird.rect.bottom = p.bottom_rect.top) ∧
    (stepLogic touchState 100).game_over = false := by
  decide

/-! Score versus scored flags (claim C5) -/

/-- C5 (amended): Along any input sequence from the initial state,
the score equals the number of scored obstacles *spawned during the
session*, i.e. the scored obstacles still in the stream plus the scored
obstacles already retired from it (the ghost accumulator of `grun`,
whose first component coincides with the real run); and the score never
decreases on any frame of a session (any frame whose state is not
game-over). -/
theorem score_counts_scored_incl_retired (inputs : List (Bool × ℤ)) :
    (grun (initState, []) inputs).1 = run initState inputs ∧
    (grun (initState, []) inputs).1.score =
      countScored (grun (initState, []) inputs).1.pipes +
        countScored (grun (initState, []) inputs).2 ∧
    (∀ (s : GameState) (sp : Bool) (h : ℤ), s.game_over = false →
      s.score ≤ (frame s sp h).score) :=
  ⟨grun_fst inputs (initState, []),
   sessionInv_grun inputs (initState, []) (by unfold SessionInv; decide),
   fun s sp h hg => frame_score_mono s sp h hg⟩

theorem score_counts_scored_witness :
    (grun (initState, []) [(true, 250)]).1 = run initState [(true, 250)] ∧
    (grun (initState, []) [(true, 250)]).1.score =
      countScored (grun (initState, []) [(true, 250)]).1.pipes +
        countScored (grun (initState, []) [(true, 250)]).2 ∧
    (initState.game_over = false ∧ initState.score ≤ (frame initState true 250).score) := by
  have T := score_counts_scored_incl_retired [(true, 250)]
  exact ⟨T.1, T.2.1, by decide, T.2.2 initState true 250 (by decide)⟩

/-- An input policy that plays the game: start on the first frame, then
jump whenever the bird has sunk to `y ≥ 360`; every spawn draws gap top
`250`.  It keeps the bird inside the gaps long enough for the first pipe
to retire. -/
def policy (s : GameState) : Bool :=
  s.start_screen || decide (s.bird.rect.y ≥ 360)

def autoStep (s : GameState) : GameState :=
  frame s (policy s) 250

def chunk88 : GameState :=
  ⟨⟨⟨235, 327, 30, 30⟩, -5⟩, [], 0, false, false, 88⟩

def chunk176 : GameState :=
  ⟨⟨⟨235, 351, 30, 30⟩, 7⟩, [Pipe.new 739 250], 0, false, false, 86⟩

def chunk264 : GameState :=
  ⟨⟨⟨235, 311, 30, 30⟩, 3⟩, [Pipe.new 475 250, Pipe.new 745 250], 0, false, false, 84⟩

def chunk352 : GameState :=
  ⟨⟨⟨235, 303, 30, 30⟩, -1⟩,
   [Pipe.new 211 250, Pipe.new 481 250, Pipe.new 751 250], 0, false, false, 82⟩

def chunk440 : GameState :=
  ⟨⟨⟨235, 327, 30, 30⟩, -5⟩,
   [Pipe.new 217 250, Pipe.new 487 250, Pipe.new 757 250], 1, false, false, 80⟩

/-- C5 (counterexample): A concrete 440-frame session (driven by
`policy`): the first pipe was scored on tick 361 and retired from the
stream on tick 440, so the score is `1` while no pipe in the stream has
its scored flag set — the claim's "score equals the number of obstacles
whose scored flag is true", read over the obstacle stream, fails. -/
theorem score_vs_live_scored_cex :
    (autoStep^[440] initState).game_over = false ∧
    (autoStep^[440] initState).score = 1 ∧
    countScored (autoStep^[440] initState).pipes = 0 := by
  have h1 : autoStep^[88] initState = chunk88 := by decide
  have h2 : autoStep^[88] chunk88 = chunk176 := by decide
  have h3 : autoStep^[88] chunk176 = chunk264 := by decide
  have h4 : autoStep^[88] chunk264 = chunk352 := by decide
  have h5 : autoStep^[88] chunk352 = chunk440 := by decide
  have e1 : autoStep^[440] initState = autoStep^[352] (autoStep^[88] initState) :=
    Function.iterate_add_apply autoStep 352 88 initState
  have e2 : autoStep^[352] chunk88 = autoStep^[264] (autoStep^[88] chunk88) :=
    Function.iterate_add_apply autoStep 264 88 chunk88
  have e3 : autoStep^[264] chunk176 = autoStep^[176] (autoStep^[88] chunk176) :=
    Function.iterate_add_apply autoStep 176 88 chunk176
  have e4 : autoStep^[176] chunk264 = autoStep^[88] (autoStep^[88] chunk264) :=
    Function.iterate_add_apply autoStep 88 88 chunk264
  have e : autoStep^[440] initState = chunk440 := by
    rw [e1, h1, e2, h2, e3, h3, e4, h4, h5]
  rw [e]
  decide

end FlyingBird
